import Mathlib

/-!
Shallow embedding of the Contoso Cafe bot's dispatcher/orchestration core.

The repository holds two dispatcher variants:
* variant 1: `dialogs/mainDialog/index.js` (`onDialogContinue`,
  `beginChildDialog`, `isRequestedOperationPossible`), which keeps the
  active dialog in a dedicated conversation-state property;
* variant 2: the `MainDialog` class concatenated into
  `dialogs/shared/stateProperties/onTurnProperty.js` (`mainDispatch`,
  `beginChildDialog`, `isRequestedOperationPossible`,
  `beginWhoAreYouDialog`, `beginWhatCanYouDoDialog`).

External collaborators (the botbuilder dialog stack, the child dialogs,
`JSON.parse`) are not part of the repository; they are modelled as
parameters of an environment record, following the sub-conversation
contract of the spec (begin/continue produce a turn outcome and may send
messages; a dialog that does not stay `waiting` leaves the stack).
-/

namespace ContosoDispatch

/-- Entity values the dispatcher reads from LUIS results or card input:
either a plain string or an array of strings (JS values are untyped; these
are the two shapes the dispatcher code actually indexes into). -/
inductive EValue where
  | vstr (s : String)
  | vlist (l : List String)
deriving DecidableEq

/-- JS indexing `v[0]`: the first element of an array, the first character
of a string, `undefined` (`none`) otherwise. -/
def EValue.index0 : EValue → Option String
  | .vlist l => l.head?
  | .vstr s => if s.isEmpty then none else some (s.take 1)

/-- `entityProperty` (shared/stateProperties/entityProperty): a named
entity value. -/
structure EntityProperty where
  entityName : String
  entityValue : EValue
deriving DecidableEq

/-- `OnTurnProperty` (shared/stateProperties/onTurnProperty.js, lines
9-20): the normalized turn signal: an intent and the entities of the
turn. -/
structure OnTurnProperty where
  intent : String
  entities : List EntityProperty
deriving DecidableEq

/-- The opaque payload carried by a `complete` result; the `Abandon`
branch of `mainDispatch` reads its `onTurnProperty` field. -/
structure Payload where
  onTurnProperty : OnTurnProperty
deriving DecidableEq

/-- `DialogTurnStatus` of botbuilder-dialogs. -/
inductive DialogTurnStatus where
  | empty
  | waiting
  | complete
  | cancelled
deriving DecidableEq

/-- The `result` object attached to a `complete` turn result: an optional
`reason` tag (`"Interruption"` or `"Abandon"`) and an opaque payload. -/
structure CompleteResult where
  reason : Option String
  payload : Payload
deriving DecidableEq

/-- A dialog turn result: a status and, for finished dialogs, an optional
result object. -/
structure DialogTurnResult where
  status : DialogTurnStatus
  result : Option CompleteResult
deriving DecidableEq

/-- Modelled from the spec: `UserProfile` (§3, `{ userName: string }`);
the `userProfileProperty` class itself is not under src/. -/
structure UserProfile where
  userName : String
deriving DecidableEq

/-- The outcome object built by both `isRequestedOperationPossible`
variants: `{allowed: true, reason: ''}` mutated by the policy rules. -/
structure PermissionOutcome where
  allowed : Bool
  reason : String
deriving DecidableEq

/-- What an awaited dispatch step evaluates to in JS: a dialog turn
result, the `ResourceResponse` of a `sendActivity` call, `undefined`
(a `switch` that matched no case), or a raised exception. -/
inductive JSResult where
  | turnResult (r : DialogTurnResult)
  | resourceResponse
  | undef
  | thrown
deriving DecidableEq

/-- Observable actions of one turn, in order: messages sent, dialogs
begun (with their begin options), `dc.cancelAll()`, the `dc.EndAsync()`
call of variant 1, and writes to the user profile accessor. -/
inductive Effect where
  | sent (m : String)
  | began (name : String) (options : Option Payload)
  | cancelledAll
  | endedAsync
  | setProfile (p : UserProfile)
deriving DecidableEq

/-- Is this effect the beginning of some dialog? -/
def Effect.isBegan : Effect → Bool
  | .began _ _ => true
  | _ => false

/-- Is this effect the beginning of the dialog called `name`? -/
def Effect.isBeganOf (name : String) : Effect → Bool
  | .began n _ => n == name
  | _ => false

/-- What a black-box child dialog does when begun or continued: its turn
result and the messages it sends while handling the turn. -/
structure ChildResponse where
  result : DialogTurnResult
  msgs : List String

/-- The shape `beginWhatCanYouDoDialog` expects of a successfully parsed
card payload: an optional embedded query text, and the intent/entities it
is then re-dispatched with (`beginChildDialog(dc, parsedJSON)`). -/
structure ParsedJSON where
  text : Option String
  intent : String
  entities : List EntityProperty
deriving DecidableEq

/-- The parsed payload used as an on-turn property by the recursive
re-dispatch. -/
def ParsedJSON.toOnTurnProperty (p : ParsedJSON) : OnTurnProperty :=
  ⟨p.intent, p.entities⟩

/-! Intent and entity name literals that appear in src/. -/

/-- `USER_NAME_ENTITY` (mainDialog part of onTurnProperty.js, line 67). -/
def USER_NAME_ENTITY : String := "userName_patternAny"

/-- `NONE_INTENT` (mainDialog part of onTurnProperty.js, line 68). -/
def NONE_INTENT : String := "None"

/-- `QUERY_PROPERTY` (mainDialog part of onTurnProperty.js, line 72). -/
def QUERY_PROPERTY : String := "query"

/-! Modelled from the spec: the child dialog classes (BookTableDialog,
WhoAreYouDialog, CancelDialog, QnADialog, ChitChatDialog, HelpDialog,
FindCafeLocationsDialog, WhatCanYouDoDialog) live in modules that are not
under src/; only their `Name` constants are consumed by the dispatcher.
They are modelled as distinct strings, named as the spec names the flows
("BookTable" and "WhoAreYou" for the two multi-turn flows, the generic
"cancel" intent); the remaining names carry no constraints beyond
distinctness. -/

/-- Modelled from the spec: `BookTableDialog.Name` (§8 uses "BookTable"). -/
def BookTableDialogName : String := "BookTable"

/-- Modelled from the spec: `WhoAreYouDialog.Name` (§8 dispatches intent
"WhoAreYou"). -/
def WhoAreYouDialogName : String := "WhoAreYou"

/-- Modelled from the spec: `CancelDialog.Name`, the generic "cancel"
intent of §4.1/§8. -/
def CancelDialogName : String := "cancel"

/-- Modelled from the spec: `QnADialog.Name`. -/
def QnADialogName : String := "QnA"

/-- Modelled from the spec: `ChitChatDialog.Name`. -/
def ChitChatDialogName : String := "ChitChat"

/-- Modelled from the spec: `HelpDialog.Name`. -/
def HelpDialogName : String := "Help"

/-- Modelled from the spec: `FindCafeLocationsDialog.Name`. -/
def FindCafeLocationsDialogName : String := "FindCafeLocations"

/-- Modelled from the spec: `WhatCanYouDoDialog.Name`. -/
def WhatCanYouDoDialogName : String := "WhatCanYouDo"

namespace V2

/-- Per-conversation state of variant 2: the dialog stack of the main
dialog's dialog context (head = `dc.activeDialog`), and the user profile
behind `userProfilePropertyAccessor`. -/
structure ConvState where
  stack : List String
  userProfile : Option UserProfile
deriving DecidableEq

/-- Per-turn context: the conversation state threaded through the turn,
the ordered effect trace, `dc.context.responded`, and
`dc.context.activity.text`. -/
structure TurnCtx where
  conv : ConvState
  trace : List Effect
  responded : Bool
  activityText : String
deriving DecidableEq

/-- The black-box collaborators of variant 2: what each named child
dialog does on continue and on begin, and `JSON.parse` outcomes. -/
structure Env where
  childContinue : String → OnTurnProperty → ChildResponse
  childBegin : String → Option Payload → OnTurnProperty → ChildResponse
  parseJSON : EValue → Option ParsedJSON

/-- `dc.context.sendActivity(m)`. -/
def sendActivity (m : String) (ctx : TurnCtx) : TurnCtx :=
  { ctx with trace := ctx.trace ++ [Effect.sent m], responded := true }

/-- Send a list of messages in order. -/
def sendAll (msgs : List String) (ctx : TurnCtx) : TurnCtx :=
  msgs.foldl (fun c m => sendActivity m c) ctx

/-- `userProfilePropertyAccessor.set(dc.context, p)`. -/
def recordSetProfile (p : UserProfile) (ctx : TurnCtx) : TurnCtx :=
  { ctx with trace := ctx.trace ++ [Effect.setProfile p],
             conv := { ctx.conv with userProfile := some p } }

/-- SDK `dc.continue()`: with no active dialog return an `empty` result;
otherwise the active child handles the turn, and it stays on the stack
exactly when its result is `waiting`. -/
def dcContinue (env : Env) (otp : OnTurnProperty) (ctx : TurnCtx) :
    DialogTurnResult × TurnCtx :=
  match ctx.conv.stack with
  | [] => (⟨DialogTurnStatus.empty, none⟩, ctx)
  | d :: rest =>
    let resp := env.childContinue d otp
    let ctx1 := sendAll resp.msgs ctx
    let stack1 :=
      if resp.result.status = DialogTurnStatus.waiting then d :: rest else rest
    (resp.result, { ctx1 with conv := { ctx1.conv with stack := stack1 } })

/-- SDK `dc.begin(name, payload)`: start the named child; it remains on
the stack exactly when its begin result is `waiting`. -/
def dcBegin (env : Env) (name : String) (payload : Option Payload)
    (otp : OnTurnProperty) (ctx : TurnCtx) : JSResult × TurnCtx :=
  let ctx1 := { ctx with trace := ctx.trace ++ [Effect.began name payload] }
  let resp := env.childBegin name payload otp
  let ctx2 := sendAll resp.msgs ctx1
  let stack1 :=
    if resp.result.status = DialogTurnStatus.waiting
    then name :: ctx2.conv.stack else ctx2.conv.stack
  (JSResult.turnResult resp.result, { ctx2 with conv := { ctx2.conv with stack := stack1 } })

/-- SDK `dc.cancelAll()`: clears the entire dialog stack. -/
def dcCancelAll (ctx : TurnCtx) : TurnCtx :=
  { ctx with trace := ctx.trace ++ [Effect.cancelledAll],
             conv := { ctx.conv with stack := [] } }

/-- SDK `dc.end()` as used by `mainDispatch` ("Nothing to do here. End
main dialog."): the main dialog itself reports a `complete` turn; the
modelled conversation state is untouched. -/
def dcEnd : JSResult := JSResult.turnResult ⟨DialogTurnStatus.complete, none⟩

/-- `isRequestedOperationPossible` of variant 2 (onTurnProperty.js part,
lines 239-257): What_can_you_do is denied while Who_are_you is active;
cancel is denied when no dialog is active. -/
def isRequestedOperationPossible (requestedOperation : String)
    (activeDialog : Option String) : PermissionOutcome :=
  if requestedOperation = WhatCanYouDoDialogName then
    if activeDialog = some WhoAreYouDialogName then
      ⟨false, "Sorry! I'm unable to process that. You can say 'cancel' to cancel this conversation.."⟩
    else ⟨true, ""⟩
  else if requestedOperation = CancelDialogName then
    if activeDialog = none then
      ⟨false, "Sure, but there is nothing to cancel.."⟩
    else ⟨true, ""⟩
  else ⟨true, ""⟩

/-- `beginWhoAreYouDialog` (onTurnProperty.js part, lines 264-286): if the
turn's entities carry a user name, capitalize it, persist it to the user
profile and greet; otherwise start the Who Are You dialog when the profile
is unset, empty or the 'Human' sentinel, else greet with the stored
name. -/
def beginWhoAreYouDialog (env : Env) (otp : OnTurnProperty) (ctx : TurnCtx) :
    JSResult × TurnCtx :=
  let userProfile := ctx.conv.userProfile
  let userNameInOnTurnProperty :=
    otp.entities.filter (fun item => item.entityName == USER_NAME_ENTITY)
  match userNameInOnTurnProperty.head? with
  | some item =>
    match item.entityValue.index0 with
    | none =>
      -- `entityValue[0]` is undefined, so `.charAt` raises a TypeError
      (JSResult.thrown, ctx)
    | some userName0 =>
      -- userName.charAt(0).toUpperCase() + userName.slice(1), character-wise
      let userName :=
        match userName0.data with
        | [] => ""
        | c :: cs => String.mk (c.toUpper :: cs)
      let ctx1 := recordSetProfile ⟨userName⟩ ctx
      (JSResult.resourceResponse,
        sendActivity ("Hello " ++ userName ++ ", Nice to meet you again! I'm the Contoso Cafe Bot.") ctx1)
  | none =>
    match userProfile with
    | none =>
      let ctx1 := sendActivity "Hello, I'm the Contoso Cafe Bot." ctx
      dcBegin env WhoAreYouDialogName none otp ctx1
    | some up =>
      if up.userName = "" ∨ up.userName = "Human" then
        let ctx1 := sendActivity "Hello, I'm the Contoso Cafe Bot." ctx
        dcBegin env WhoAreYouDialogName none otp ctx1
      else
        (JSResult.resourceResponse,
          sendActivity ("Hello " ++ up.userName ++ ", Nice to meet you again! I'm the Contoso Cafe Bot.") ctx)

/-- Body of `beginWhatCanYouDoDialog` (onTurnProperty.js part, lines
293-312). The recursive call back into `beginChildDialog` is abstracted
as `redispatch`, so the mutual recursion can be presented fuel-first in
`beginChildDialog`. -/
def beginWhatCanYouDoDialogAux (env : Env)
    (redispatch : OnTurnProperty → TurnCtx → JSResult × TurnCtx)
    (otp : OnTurnProperty) (ctx : TurnCtx) : JSResult × TurnCtx :=
  let queryProperty :=
    otp.entities.filter (fun item => item.entityName == QUERY_PROPERTY)
  match queryProperty.head? with
  | some q =>
    match env.parseJSON q.entityValue with
    | none =>
      (JSResult.resourceResponse,
        sendActivity "Try and choose a query from the card before you click the 'Let's talk!' button." ctx)
    | some parsedJSON =>
      let ctx1 :=
        match parsedJSON.text with
        | some t =>
          sendActivity ("You said: '" ++ t ++ "'") { ctx with activityText := t }
        | none => ctx
      redispatch parsedJSON.toOnTurnProperty ctx1
  | none => dcBegin env WhatCanYouDoDialogName none otp ctx

/-- `beginChildDialog` (onTurnProperty.js part, lines 209-230): switch on
the turn's intent. The `fuel` bounds the unbounded JS recursion
`beginWhatCanYouDoDialog` → `beginChildDialog`; exhausted fuel models the
runaway re-entry (stack exhaustion) as a raised exception. -/
def beginChildDialog (env : Env) :
    Nat → OnTurnProperty → Option Payload → TurnCtx → JSResult × TurnCtx
  | fuel, otp, childDialogPayload, ctx =>
    if otp.intent = QnADialogName ∨ otp.intent = ChitChatDialogName ∨ otp.intent = HelpDialogName then
      dcBegin env QnADialogName none otp ctx
    else if otp.intent = CancelDialogName then
      dcBegin env CancelDialogName childDialogPayload otp ctx
    else if otp.intent = WhoAreYouDialogName then
      beginWhoAreYouDialog env otp ctx
    else if otp.intent = FindCafeLocationsDialogName then
      dcBegin env FindCafeLocationsDialogName none otp ctx
    else if otp.intent = WhatCanYouDoDialogName then
      match fuel with
      | 0 => (JSResult.thrown, ctx)
      | Nat.succ n =>
        beginWhatCanYouDoDialogAux env (fun o c => beginChildDialog env n o none c) otp ctx
    else if otp.intent = NONE_INTENT then
      let ctx1 := sendActivity "I'm still learning.. Sorry, I do not know how to help you with that." ctx
      let ctx2 :=
        sendActivity ("Follow [this link](https://www.bing.com/search?q=" ++ ctx1.activityText ++ ") to search the web!") ctx1
      (JSResult.resourceResponse, ctx2)
    else (JSResult.undef, ctx)

/-- `beginWhatCanYouDoDialog` (onTurnProperty.js part, lines 293-312),
with its recursive re-dispatch routed through `beginChildDialog` at the
given fuel. -/
def beginWhatCanYouDoDialog (env : Env) (fuel : Nat) (otp : OnTurnProperty)
    (ctx : TurnCtx) : JSResult × TurnCtx :=
  beginWhatCanYouDoDialogAux env (fun o c => beginChildDialog env fuel o none c) otp ctx

/-- `mainDispatch` (onTurnProperty.js part, lines 140-201): permission
check, continue outstanding dialogs, begin the right child when nobody
responded, then reconcile the result (the `complete` case falls through
the `waiting` case as in the JS switch). -/
def mainDispatch (env : Env) (fuel : Nat) (otp : OnTurnProperty)
    (activityText : String) (conv : ConvState) : JSResult × TurnCtx :=
  let ctx0 : TurnCtx := ⟨conv, [], false, activityText⟩
  let reqOpStatus := isRequestedOperationPossible otp.intent conv.stack.head?
  if reqOpStatus.allowed = false then
    (dcEnd, sendActivity reqOpStatus.reason ctx0)
  else
    let step1 := dcContinue env otp ctx0
    let contRes := step1.1
    let ctx1 := step1.2
    let step2 :=
      if ctx1.responded = false then beginChildDialog env fuel otp none ctx1
      else (JSResult.turnResult contRes, ctx1)
    let r1 := step2.1
    let ctx2 := step2.2
    match r1 with
    | JSResult.thrown => (JSResult.thrown, ctx2)
    | JSResult.undef => (dcEnd, ctx2)
    | _ =>
      let step3 :=
        match r1 with
        | JSResult.turnResult res =>
          match res.status with
          | DialogTurnStatus.complete =>
            match res.result with
            | some cres =>
              if cres.reason = some "Interruption" then
                beginChildDialog env fuel otp (some cres.payload) ctx2
              else if cres.reason = some "Abandon" then
                beginChildDialog env fuel cres.payload.onTurnProperty none ctx2
              else (r1, ctx2)
            | none =>
              (r1, sendActivity "Is there anything else I can help you with?" ctx2)
          | DialogTurnStatus.waiting => (r1, ctx2)
          | DialogTurnStatus.cancelled =>
            (r1, dcCancelAll (sendActivity "Is there anything else I can help you with?" ctx2))
          | DialogTurnStatus.empty => (r1, ctx2)
        | _ => (r1, ctx2)
      match step3.1 with
      | JSResult.thrown => (JSResult.thrown, step3.2)
      | JSResult.undef => (JSResult.turnResult ⟨DialogTurnStatus.empty, none⟩, step3.2)
      | _ => step3

end V2

namespace V1

/-- Per-conversation state of variant 1: the value of
`activeDialogPropertyAccessor` and the dialog stack behind
`dc.continue()`. -/
structure ConvState where
  activeDialogProp : Option String
  stack : List String
deriving DecidableEq

/-- Per-turn context of variant 1. -/
structure TurnCtx where
  conv : ConvState
  trace : List Effect
  responded : Bool
deriving DecidableEq

/-- The black-box collaborators of variant 1: the active child's
continue behavior and `qnaDialog.onTurn`. -/
structure Env where
  childContinue : String → OnTurnProperty → ChildResponse
  qnaOnTurn : OnTurnProperty → ChildResponse

/-- `dc.context.sendActivity(m)`. -/
def sendActivity (m : String) (ctx : TurnCtx) : TurnCtx :=
  { ctx with trace := ctx.trace ++ [Effect.sent m], responded := true }

/-- Send a list of messages in order. -/
def sendAll (msgs : List String) (ctx : TurnCtx) : TurnCtx :=
  msgs.foldl (fun c m => sendActivity m c) ctx

/-- SDK `dc.continue()` for variant 1 (same stack discipline as
variant 2). -/
def dcContinue (env : Env) (otp : OnTurnProperty) (ctx : TurnCtx) :
    DialogTurnResult × TurnCtx :=
  match ctx.conv.stack with
  | [] => (⟨DialogTurnStatus.empty, none⟩, ctx)
  | d :: rest =>
    let resp := env.childContinue d otp
    let ctx1 := sendAll resp.msgs ctx
    let stack1 :=
      if resp.result.status = DialogTurnStatus.waiting then d :: rest else rest
    (resp.result, { ctx1 with conv := { ctx1.conv with stack := stack1 } })

/-- SDK `dc.cancelAll()`. -/
def dcCancelAll (ctx : TurnCtx) : TurnCtx :=
  { ctx with trace := ctx.trace ++ [Effect.cancelledAll],
             conv := { ctx.conv with stack := [] } }

/-- `isRequestedOperationPossible` of variant 1 (mainDialog/index.js,
lines 119-143): card actions Book_Table_Submit / Book_Table_Cancel are
denied unless Book Table is the active dialog; the cancel rule tests
`activeDialog !== BookTableDialog.Name || activeDialog !==
WhoAreYouDialog.Name`, a disjunction the source comments describe as
"only possible for multi-turn dialogs - Book Table, Who are you". -/
def isRequestedOperationPossible (requestedOperation : String)
    (activeDialog : Option String) : PermissionOutcome :=
  if requestedOperation = "Book_Table_Submit" ∨ requestedOperation = "Book_Table_Cancel" then
    if activeDialog ≠ some BookTableDialogName then
      ⟨false, "Sorry! I'm unable to process that. To start a new table reservation, try 'Book a table'"⟩
    else ⟨true, ""⟩
  else if requestedOperation = CancelDialogName then
    if activeDialog ≠ some BookTableDialogName ∨ activeDialog ≠ some WhoAreYouDialogName then
      ⟨false, "Nothing to cancel."⟩
    else ⟨true, ""⟩
  else ⟨true, ""⟩

/-- `beginChildDialog` of variant 1 (mainDialog/index.js, lines 94-118):
QnA-family intents go to `qnaDialog.onTurn`; the other known intents only
send a placeholder message; everything else (including the None intent)
falls through the switch and returns `undefined`. -/
def beginChildDialog (env : Env) (otp : OnTurnProperty) (ctx : TurnCtx) :
    JSResult × TurnCtx :=
  if otp.intent = QnADialogName ∨ otp.intent = ChitChatDialogName ∨ otp.intent = HelpDialogName then
    let resp := env.qnaOnTurn otp
    (JSResult.turnResult resp.result, sendAll resp.msgs ctx)
  else if otp.intent = CancelDialogName then
    (JSResult.resourceResponse, sendActivity "Cancel" ctx)
  else if otp.intent = BookTableDialogName then
    (JSResult.resourceResponse, sendActivity "Book Table" ctx)
  else if otp.intent = WhoAreYouDialogName then
    (JSResult.resourceResponse, sendActivity "Who are You!" ctx)
  else if otp.intent = FindCafeLocationsDialogName then
    (JSResult.resourceResponse, sendActivity "Find Cafe Locations!" ctx)
  else (JSResult.undef, ctx)

/-- `onDialogContinue` of variant 1 (mainDialog/index.js, lines 43-92):
permission check, continue outstanding dialogs, early return when the
continuation result is not `empty`, then the reconciliation switch (whose
non-`empty` cases are guarded by that early return; `dc.EndAsync()` is
recorded as an effect). -/
def onDialogContinue (env : Env) (otp : OnTurnProperty) (conv : ConvState) :
    JSResult × TurnCtx :=
  let ctx0 : TurnCtx := ⟨conv, [], false⟩
  let reqOpStatus := isRequestedOperationPossible otp.intent conv.activeDialogProp
  if reqOpStatus.allowed = false then
    -- returns the dialogTurnResult initialized to DialogTurnStatus.empty
    (JSResult.turnResult ⟨DialogTurnStatus.empty, none⟩, sendActivity reqOpStatus.reason ctx0)
  else
    let step1 := dcContinue env otp ctx0
    let contRes := step1.1
    let ctx1 := step1.2
    if contRes.status ≠ DialogTurnStatus.empty then
      (JSResult.turnResult contRes, ctx1)
    else
      let step2 :=
        match contRes.status with
        | DialogTurnStatus.empty => beginChildDialog env otp ctx1
        | DialogTurnStatus.complete =>
          let ctxA := sendActivity "What else can I help you with?" ctx1
          (JSResult.turnResult contRes, { ctxA with trace := ctxA.trace ++ [Effect.endedAsync] })
        | DialogTurnStatus.waiting => (JSResult.turnResult contRes, ctx1)
        | DialogTurnStatus.cancelled =>
          (JSResult.turnResult contRes, dcCancelAll (sendActivity "What else can I help you with?" ctx1))
      match step2.1 with
      | JSResult.undef => (JSResult.turnResult ⟨DialogTurnStatus.empty, none⟩, step2.2)
      | _ => step2

end V1

/-! Concrete environments and runs used by the claim theorems below. -/

/-- A variant-2 environment whose Book Table dialog, when continued, ends
with a `complete` result tagged `Interruption` carrying the payload `p`,
and whose Find Cafe Locations / Cancel dialogs respond with a message and
stay waiting when begun. -/
def envInterrupt (p : Payload) : V2.Env :=
  { childContinue := fun d _ =>
      if d = BookTableDialogName then
        ⟨⟨DialogTurnStatus.complete, some ⟨some "Interruption", p⟩⟩,
          ["Okay, I will stop the reservation."]⟩
      else ⟨⟨DialogTurnStatus.waiting, none⟩, []⟩,
    childBegin := fun name _ _ =>
      if name = FindCafeLocationsDialogName then
        ⟨⟨DialogTurnStatus.waiting, none⟩, ["Here are our locations."]⟩
      else if name = CancelDialogName then
        ⟨⟨DialogTurnStatus.waiting, none⟩, ["Are you sure you want to cancel?"]⟩
      else ⟨⟨DialogTurnStatus.waiting, none⟩, []⟩,
    parseJSON := fun _ => none }

/-- The interruption run with a payload that carries the Who Are You
intent while the current turn's intent is Find Cafe Locations. -/
def runInterruptX : JSResult × V2.TurnCtx :=
  V2.mainDispatch (envInterrupt ⟨⟨WhoAreYouDialogName, []⟩⟩) 8
    ⟨FindCafeLocationsDialogName, []⟩ "" ⟨[BookTableDialogName], none⟩

/-- A variant-2 environment whose Book Table dialog ends with an
`Interruption`-tagged `complete` result whose payload names the cancel
intent, and whose Find Cafe Locations dialog immediately reports
`cancelled` when begun. -/
def envInterruptThenCancelled : V2.Env :=
  { childContinue := fun d _ =>
      if d = BookTableDialogName then
        ⟨⟨DialogTurnStatus.complete, some ⟨some "Interruption", ⟨⟨CancelDialogName, []⟩⟩⟩⟩,
          ["Stopping the reservation."]⟩
      else ⟨⟨DialogTurnStatus.waiting, none⟩, []⟩,
    childBegin := fun name _ _ =>
      if name = FindCafeLocationsDialogName then
        ⟨⟨DialogTurnStatus.cancelled, none⟩, ["Never mind."]⟩
      else ⟨⟨DialogTurnStatus.waiting, none⟩, []⟩,
    parseJSON := fun _ => none }

/-- A turn of variant 2 whose resulting outcome is `cancelled` but which
was produced by the Interruption re-dispatch inside the reconciliation
switch, with an older frame still on the stack. -/
def runCancelledNoCleanup : JSResult × V2.TurnCtx :=
  V2.mainDispatch envInterruptThenCancelled 8
    ⟨FindCafeLocationsDialogName, []⟩ "" ⟨[BookTableDialogName, "EarlierFrame"], none⟩

/-- A variant-2 environment whose active dialog reports `cancelled` (with
a farewell message) whenever it is continued. -/
def envCancelled : V2.Env :=
  { childContinue := fun _ _ =>
      ⟨⟨DialogTurnStatus.cancelled, none⟩, ["Okay, cancelling everything."]⟩,
    childBegin := fun _ _ _ => ⟨⟨DialogTurnStatus.waiting, none⟩, []⟩,
    parseJSON := fun _ => none }

/-- A quiescent variant-2 environment: children wait silently and every
payload fails to parse. -/
def envIdle : V2.Env :=
  { childContinue := fun _ _ => ⟨⟨DialogTurnStatus.waiting, none⟩, []⟩,
    childBegin := fun _ _ _ => ⟨⟨DialogTurnStatus.waiting, none⟩, []⟩,
    parseJSON := fun _ => none }

/-- Dispatching a Who Are You turn that re-introduces the user as
"alice", on an idle conversation. -/
def runWhoAreYouReintro : JSResult × V2.TurnCtx :=
  V2.mainDispatch envIdle 8
    ⟨WhoAreYouDialogName, [⟨USER_NAME_ENTITY, EValue.vlist ["alice"]⟩]⟩ "" ⟨[], none⟩

/-- A variant-2 environment whose active dialog consumes every turn with
a prompt and stays `waiting`. -/
def envWaiting : V2.Env :=
  { childContinue := fun _ _ =>
      ⟨⟨DialogTurnStatus.waiting, none⟩, ["What time works for you?"]⟩,
    childBegin := fun _ _ _ => ⟨⟨DialogTurnStatus.waiting, none⟩, []⟩,
    parseJSON := fun _ => none }

/-- A trivial variant-1 environment. -/
def envV1triv : V1.Env :=
  ⟨fun _ _ => ⟨⟨DialogTurnStatus.empty, none⟩, []⟩,
   fun _ => ⟨⟨DialogTurnStatus.empty, none⟩, []⟩⟩

/-- A variant-1 environment whose active dialog consumes the turn with a
prompt and stays `waiting`. -/
def envV1wait : V1.Env :=
  ⟨fun _ _ => ⟨⟨DialogTurnStatus.waiting, none⟩, ["What time do you want to reserve?"]⟩,
   fun _ => ⟨⟨DialogTurnStatus.empty, none⟩, []⟩⟩

/-! Helper lemmas about the message-sending primitives. -/

theorem v2_sendAll_conv (msgs : List String) (ctx : V2.TurnCtx) :
    (V2.sendAll msgs ctx).conv = ctx.conv := by
  induction msgs generalizing ctx with
  | nil => rfl
  | cons m ms ih => simp [V2.sendAll, V2.sendActivity] at ih ⊢; exact ih _

theorem v2_sendAll_trace (msgs : List String) (ctx : V2.TurnCtx) :
    (V2.sendAll msgs ctx).trace = ctx.trace ++ msgs.map Effect.sent := by
  induction msgs generalizing ctx with
  | nil => simp [V2.sendAll]
  | cons m ms ih =>
    simp only [V2.sendAll, List.foldl_cons] at ih ⊢
    rw [ih]
    simp [V2.sendActivity]

theorem v2_sendAll_responded (msgs : List String) (ctx : V2.TurnCtx) :
    (V2.sendAll msgs ctx).responded = (ctx.responded || !msgs.isEmpty) := by
  induction msgs generalizing ctx with
  | nil => simp [V2.sendAll]
  | cons m ms ih =>
    simp only [V2.sendAll, List.foldl_cons] at ih ⊢
    rw [ih]
    simp [V2.sendActivity]

theorem v2_sendAll_activityText (msgs : List String) (ctx : V2.TurnCtx) :
    (V2.sendAll msgs ctx).activityText = ctx.activityText := by
  induction msgs generalizing ctx with
  | nil => rfl
  | cons m ms ih => simp [V2.sendAll, V2.sendActivity] at ih ⊢; exact ih _

theorem v1_sendAll_conv (msgs : List String) (ctx : V1.TurnCtx) :
    (V1.sendAll msgs ctx).conv = ctx.conv := by
  induction msgs generalizing ctx with
  | nil => rfl
  | cons m ms ih => simp [V1.sendAll, V1.sendActivity] at ih ⊢; exact ih _

theorem v1_sendAll_trace (msgs : List String) (ctx : V1.TurnCtx) :
    (V1.sendAll msgs ctx).trace = ctx.trace ++ msgs.map Effect.sent := by
  induction msgs generalizing ctx with
  | nil => simp [V1.sendAll]
  | cons m ms ih =>
    simp only [V1.sendAll, List.foldl_cons] at ih ⊢
    rw [ih]
    simp [V1.sendActivity]

theorem map_sent_all_not_isBegan (msgs : List String) :
    ((msgs.map Effect.sent).all (fun e => !e.isBegan)) = true := by
  simp [Effect.isBegan]

theorem cancelledAll_not_mem_map_sent (msgs : List String) :
    Effect.cancelledAll ∉ msgs.map Effect.sent := by
  simp

theorem endedAsync_not_mem_map_sent (msgs : List String) :
    Effect.endedAsync ∉ msgs.map Effect.sent := by
  simp

/-- Shared helper: a `mainDispatch` turn that resumes the active dialog,
which consumes the turn (sends at least one message) and stays
`waiting`, returns the child's result and leaves the conversation state
exactly as it was. -/
theorem mainDispatch_waiting_run (env : V2.Env) (fuel : Nat) (otp : OnTurnProperty)
    (text : String) (conv : V2.ConvState) (d : String) (rest : List String)
    (hstack : conv.stack = d :: rest)
    (hallow : (V2.isRequestedOperationPossible otp.intent (some d)).allowed = true)
    (hw : (env.childContinue d otp).result.status = DialogTurnStatus.waiting)
    (hm : (env.childContinue d otp).msgs ≠ []) :
    V2.mainDispatch env fuel otp text conv =
      (JSResult.turnResult (env.childContinue d otp).result,
       ⟨conv, (env.childContinue d otp).msgs.map Effect.sent, true, text⟩) := by
  obtain ⟨s, up⟩ := conv
  simp only [V2.ConvState.mk.injEq] at hstack ⊢
  subst hstack
  have hie : (env.childContinue d otp).msgs.isEmpty = false := by
    cases h : (env.childContinue d otp).msgs with
    | nil => exact absurd h hm
    | cons a l => rfl
  unfold V2.mainDispatch V2.dcContinue
  simp only [List.head?_cons, hallow, Bool.true_eq_false, if_false, reduceIte, hw,
    v2_sendAll_conv, v2_sendAll_trace, v2_sendAll_responded, v2_sendAll_activityText, hie,
    Bool.false_or, Bool.not_false, if_true]
  rfl

/-- The claim C3: with no active sub-conversation, the generic cancel
intent is denied with the "nothing to cancel" reason, in both dispatcher
variants. -/
theorem evaluate_cancel_no_active_denied :
    V2.isRequestedOperationPossible CancelDialogName none =
      ⟨false, "Sure, but there is nothing to cancel.."⟩ ∧
    V1.isRequestedOperationPossible CancelDialogName none =
      ⟨false, "Nothing to cancel."⟩ := by
  decide

/-- The claim C4: in variant 1 the disjunctive exclusivity check of the
cancel rule is true for every possible active-dialog value, so the cancel
intent is always denied, whichever sub-conversation is active — including
Book Table and Who Are You. -/
theorem v1_cancel_always_denied (activeDialog : Option String) :
    V1.isRequestedOperationPossible CancelDialogName activeDialog =
      ⟨false, "Nothing to cancel."⟩ := by
  unfold V1.isRequestedOperationPossible
  have h1 : ¬(CancelDialogName = "Book_Table_Submit" ∨ CancelDialogName = "Book_Table_Cancel") := by
    decide
  have h2 : activeDialog ≠ some BookTableDialogName ∨ activeDialog ≠ some WhoAreYouDialogName := by
    by_cases h : activeDialog = some BookTableDialogName
    · right
      rw [h]
      intro hc
      have : BookTableDialogName = WhoAreYouDialogName := Option.some.inj hc
      exact absurd this (by decide)
    · left
      exact h
  rw [if_neg h1, if_pos rfl, if_pos h2]

/-- The claim C5: in variant 1, the card-only intent `Book_Table_Submit`
is allowed while Book Table is the active sub-conversation, and denied —
with a guidance message naming the "Book a table" entry phrase — when no
sub-conversation is active. -/
theorem book_table_submit_permission :
    (V1.isRequestedOperationPossible "Book_Table_Submit" (some BookTableDialogName)).allowed = true ∧
    V1.isRequestedOperationPossible "Book_Table_Submit" none =
      ⟨false, "Sorry! I'm unable to process that. To start a new table reservation, try 'Book a table'"⟩ := by
  decide

/-- The claim C1, counterexample: an interrupted Book Table turn whose
`Interruption` payload carries the Who Are You intent while the current
turn's intent is Find Cafe Locations — `mainDispatch` begins Find Cafe
Locations (the current turn's intent), and no sub-conversation named by
the payload's intent is begun, refuting the claim that the re-dispatch
targets the intent carried in the outcome's payload. -/
theorem interruption_payload_intent_ignored_counterexample :
    runInterruptX.2.trace.filter (Effect.isBeganOf WhoAreYouDialogName) = [] ∧
    runInterruptX.2.trace.filter (Effect.isBeganOf FindCafeLocationsDialogName) =
      [Effect.began FindCafeLocationsDialogName none] := by
  decide

/-- The claim C1 as amended: for every dispatched turn whose resumed
sub-conversation finishes (having consumed the turn) with a `complete`
outcome carrying reason `Interruption` and payload `p`, the remainder of
the turn is exactly the `beginChildDialog` re-dispatch invoked with the
CURRENT turn's on-turn property and `p` only as begin options — so the
sub-conversation begun is keyed by the current turn's intent, the
payload's own intent never being consulted — and it starts from the
context in which the interrupted sub-conversation is already popped off
the stack (`rest`); only the final undefined-to-empty / exception
normalization is applied to the re-dispatch's result. -/
theorem interruption_redispatch_keyed_by_current_intent (env : V2.Env) (fuel : Nat)
    (otp : OnTurnProperty) (text : String) (conv : V2.ConvState) (d : String)
    (rest : List String) (p : Payload)
    (hstack : conv.stack = d :: rest)
    (hallow : (V2.isRequestedOperationPossible otp.intent (some d)).allowed = true)
    (hcomp : (env.childContinue d otp).result =
      ⟨DialogTurnStatus.complete, some ⟨some "Interruption", p⟩⟩)
    (hm : (env.childContinue d otp).msgs ≠ []) :
    V2.mainDispatch env fuel otp text conv =
      ((match (V2.beginChildDialog env fuel otp (some p)
            ⟨⟨rest, conv.userProfile⟩, (env.childContinue d otp).msgs.map Effect.sent, true, text⟩).1 with
        | JSResult.thrown => JSResult.thrown
        | JSResult.undef => JSResult.turnResult ⟨DialogTurnStatus.empty, none⟩
        | r => r),
       (V2.beginChildDialog env fuel otp (some p)
          ⟨⟨rest, conv.userProfile⟩, (env.childContinue d otp).msgs.map Effect.sent, true, text⟩).2) := by
  obtain ⟨s, up⟩ := conv
  simp only [V2.ConvState.mk.injEq] at hstack
  subst hstack
  have hie : (env.childContinue d otp).msgs.isEmpty = false := by
    cases h : (env.childContinue d otp).msgs with
    | nil => exact absurd h hm
    | cons a l => rfl
  unfold V2.mainDispatch V2.dcContinue
  simp only [List.head?_cons, hallow, Bool.true_eq_false, if_false, reduceIte, hcomp,
    v2_sendAll_conv, v2_sendAll_trace, v2_sendAll_responded, v2_sendAll_activityText, hie,
    Bool.false_or, Bool.not_false, if_true, List.nil_append, reduceCtorEq,
    Option.some.injEq, String.reduceEq]
  rcases hb : V2.beginChildDialog env fuel otp (some p)
      ⟨⟨rest, up⟩, (env.childContinue d otp).msgs.map Effect.sent, true, text⟩ with ⟨r, c⟩
  cases r <;> rfl

/-- Witness for the amended claim C1 at a concrete input: Book Table ends
with an Interruption whose payload names Who Are You while the current
turn's intent is Find Cafe Locations; the turn's remainder is the
re-dispatch keyed by the current intent, begun with the interrupted
dialog already popped. -/
theorem interruption_redispatch_keyed_by_current_intent_witness :
    (((envInterrupt ⟨⟨WhoAreYouDialogName, []⟩⟩).childContinue BookTableDialogName
        ⟨FindCafeLocationsDialogName, []⟩).result =
      ⟨DialogTurnStatus.complete, some ⟨some "Interruption", ⟨⟨WhoAreYouDialogName, []⟩⟩⟩⟩) ∧
    ((V2.isRequestedOperationPossible FindCafeLocationsDialogName
        (some BookTableDialogName)).allowed = true) ∧
    V2.mainDispatch (envInterrupt ⟨⟨WhoAreYouDialogName, []⟩⟩) 8
        ⟨FindCafeLocationsDialogName, []⟩ "" ⟨[BookTableDialogName], none⟩ =
      ((match (V2.beginChildDialog (envInterrupt ⟨⟨WhoAreYouDialogName, []⟩⟩) 8
            ⟨FindCafeLocationsDialogName, []⟩ (some ⟨⟨WhoAreYouDialogName, []⟩⟩)
            ⟨⟨[], none⟩, [Effect.sent "Okay, I will stop the reservation."], true, ""⟩).1 with
        | JSResult.thrown => JSResult.thrown
        | JSResult.undef => JSResult.turnResult ⟨DialogTurnStatus.empty, none⟩
        | r => r),
       (V2.beginChildDialog (envInterrupt ⟨⟨WhoAreYouDialogName, []⟩⟩) 8
          ⟨FindCafeLocationsDialogName, []⟩ (some ⟨⟨WhoAreYouDialogName, []⟩⟩)
          ⟨⟨[], none⟩, [Effect.sent "Okay, I will stop the reservation."], true, ""⟩).2) := by
  refine ⟨rfl, by decide, ?_⟩
  exact interruption_redispatch_keyed_by_current_intent
    (envInterrupt ⟨⟨WhoAreYouDialogName, []⟩⟩) 8 ⟨FindCafeLocationsDialogName, []⟩ ""
    ⟨[BookTableDialogName], none⟩ BookTableDialogName [] ⟨⟨WhoAreYouDialogName, []⟩⟩
    rfl (by decide) rfl (by decide)

/-- The claim C2, counterexample: a turn whose resulting outcome has
status `cancelled` (the Interruption re-dispatch began Find Cafe
Locations, which immediately cancelled) yet no closing prompt is sent, no
`cancelAll` happens and an earlier stack frame survives. -/
theorem cancelled_outcome_counterexample :
    runCancelledNoCleanup.1 = JSResult.turnResult ⟨DialogTurnStatus.cancelled, none⟩ ∧
    runCancelledNoCleanup.2.conv.stack = ["EarlierFrame"] ∧
    Effect.cancelledAll ∉ runCancelledNoCleanup.2.trace ∧
    Effect.sent "Is there anything else I can help you with?" ∉ runCancelledNoCleanup.2.trace := by
  decide

/-- The claim C2 as amended: when the outcome examined by `mainDispatch`'s
reconciliation switch is `cancelled` — i.e. the resumed active
sub-conversation finishes with status `cancelled` having consumed the
turn — the dispatcher emits the closing prompt and clears the entire
sub-conversation stack via `cancelAll`, not merely the top frame (a
cancelled outcome produced by the switch's own Interruption/Abandon
re-dispatch is instead returned unchanged, see the counterexample). -/
theorem cancelled_continuation_cancels_all (env : V2.Env) (fuel : Nat)
    (otp : OnTurnProperty) (text : String) (conv : V2.ConvState) (d : String)
    (rest : List String)
    (hstack : conv.stack = d :: rest)
    (hallow : (V2.isRequestedOperationPossible otp.intent (some d)).allowed = true)
    (hc : (env.childContinue d otp).result.status = DialogTurnStatus.cancelled)
    (hm : (env.childContinue d otp).msgs ≠ []) :
    V2.mainDispatch env fuel otp text conv =
      (JSResult.turnResult (env.childContinue d otp).result,
       ⟨⟨[], conv.userProfile⟩,
        (env.childContinue d otp).msgs.map Effect.sent
          ++ [Effect.sent "Is there anything else I can help you with?", Effect.cancelledAll],
        true, text⟩) := by
  obtain ⟨s, up⟩ := conv
  simp only [V2.ConvState.mk.injEq] at hstack
  subst hstack
  have hie : (env.childContinue d otp).msgs.isEmpty = false := by
    cases h : (env.childContinue d otp).msgs with
    | nil => exact absurd h hm
    | cons a l => rfl
  unfold V2.mainDispatch V2.dcContinue
  simp only [List.head?_cons, hallow, Bool.true_eq_false, if_false, reduceIte, hc,
    v2_sendAll_conv, v2_sendAll_trace, v2_sendAll_responded, v2_sendAll_activityText, hie,
    Bool.false_or, Bool.not_false, if_true]
  cases hres : (env.childContinue d otp).result with
  | mk status result =>
    rw [hres] at hc
    simp only at hc
    subst hc
    simp [V2.sendActivity, V2.dcCancelAll]

/-- Witness for the amended claim C2 at a concrete input: an active Book
Table dialog (with an older frame below it) cancels with a farewell
message; the closing prompt is sent and the whole stack is cleared. -/
theorem cancelled_continuation_cancels_all_witness :
    ((envCancelled.childContinue "BookTable" ⟨"Greeting", []⟩).result.status
        = DialogTurnStatus.cancelled) ∧
    ((⟨["BookTable", "EarlierFrame"], none⟩ : V2.ConvState).stack
        = "BookTable" :: ["EarlierFrame"]) ∧
    V2.mainDispatch envCancelled 8 ⟨"Greeting", []⟩ "" ⟨["BookTable", "EarlierFrame"], none⟩ =
      (JSResult.turnResult ⟨DialogTurnStatus.cancelled, none⟩,
       ⟨⟨[], none⟩,
        [Effect.sent "Okay, cancelling everything.",
         Effect.sent "Is there anything else I can help you with?", Effect.cancelledAll],
        true, ""⟩) := by
  refine ⟨rfl, rfl, ?_⟩
  exact cancelled_continuation_cancels_all envCancelled 8 ⟨"Greeting", []⟩ ""
    ⟨["BookTable", "EarlierFrame"], none⟩ "BookTable" ["EarlierFrame"] rfl (by decide) rfl
    (by decide)

/-- The claim C6: in variant 1, a denied request is a dead-end for the
turn — the denial reason is sent, the returned outcome is the
pre-initialized `empty` result, and the conversation state is exactly
what it was before the turn. -/
theorem v1_denial_dead_end (env : V1.Env) (otp : OnTurnProperty) (conv : V1.ConvState)
    (hdeny : (V1.isRequestedOperationPossible otp.intent conv.activeDialogProp).allowed = false) :
    V1.onDialogContinue env otp conv =
      (JSResult.turnResult ⟨DialogTurnStatus.empty, none⟩,
       ⟨conv, [Effect.sent (V1.isRequestedOperationPossible otp.intent conv.activeDialogProp).reason],
        true⟩) := by
  unfold V1.onDialogContinue
  simp only [hdeny, if_true, reduceIte]
  rfl

/-- Witness for C6 at a concrete input: a cancel request with no active
dialog is denied; the reason is sent, the result is `empty`, the state is
untouched. -/
theorem v1_denial_dead_end_witness :
    ((V1.isRequestedOperationPossible
        (⟨CancelDialogName, []⟩ : OnTurnProperty).intent
        (⟨none, []⟩ : V1.ConvState).activeDialogProp).allowed = false) ∧
    V1.onDialogContinue envV1triv ⟨CancelDialogName, []⟩ ⟨none, []⟩ =
      (JSResult.turnResult ⟨DialogTurnStatus.empty, none⟩,
       ⟨⟨none, []⟩, [Effect.sent "Nothing to cancel."], true⟩) := by
  refine ⟨by decide, ?_⟩
  exact v1_denial_dead_end envV1triv ⟨CancelDialogName, []⟩ ⟨none, []⟩ (by decide)

/-- The claim C7: dispatching a Who Are You turn whose entities carry the
user-name entity with value "alice" persists the capitalized "Alice" to
the user profile, greets the user, and begins no sub-conversation (in
particular not the full identification dialog). -/
theorem whoareyou_reintroduction_short_circuit :
    runWhoAreYouReintro.2.conv.userProfile = some ⟨"Alice"⟩ ∧
    runWhoAreYouReintro.2.trace =
      [Effect.setProfile ⟨"Alice"⟩,
       Effect.sent "Hello Alice, Nice to meet you again! I'm the Contoso Cafe Bot."] ∧
    (runWhoAreYouReintro.2.trace.all (fun e => !e.isBegan)) = true := by
  decide

/-- The claim C8: a "what can you do" card turn whose designated query
field fails to parse as JSON produces exactly the corrective message and
ends the turn with the `sendActivity` resource response: no re-dispatch
is performed, nothing is thrown, and the conversation state (stack and
user profile) is returned unchanged. -/
theorem malformed_payload_aborts (env : V2.Env) (fuel : Nat) (otp : OnTurnProperty)
    (text : String) (conv : V2.ConvState) (q : EntityProperty)
    (hintent : otp.intent = WhatCanYouDoDialogName)
    (hstack : conv.stack = [])
    (hq : (otp.entities.filter (fun item => item.entityName == QUERY_PROPERTY)).head? = some q)
    (hbad : env.parseJSON q.entityValue = none) :
    V2.mainDispatch env (fuel + 1) otp text conv =
      (JSResult.resourceResponse,
       ⟨conv,
        [Effect.sent "Try and choose a query from the card before you click the 'Let's talk!' button."],
        true, text⟩) := by
  obtain ⟨s, up⟩ := conv
  simp only at hstack
  subst hstack
  unfold V2.mainDispatch V2.dcContinue V2.beginChildDialog V2.beginWhatCanYouDoDialogAux
    V2.isRequestedOperationPossible
  simp only [hintent, hq, hbad, List.head?_nil, WhatCanYouDoDialogName, WhoAreYouDialogName,
    QnADialogName, ChitChatDialogName, HelpDialogName, CancelDialogName,
    FindCafeLocationsDialogName, NONE_INTENT, String.reduceEq, if_false, if_true, reduceIte,
    or_self, or_false, false_or, reduceCtorEq]
  rfl

/-- Witness for C8 at a concrete input: the card payload "not valid json"
fails to parse; only the corrective message is sent and the state is
unchanged. -/
theorem malformed_payload_aborts_witness :
    ((⟨WhatCanYouDoDialogName,
        [⟨QUERY_PROPERTY, EValue.vstr "not valid json"⟩]⟩ : OnTurnProperty).intent
      = WhatCanYouDoDialogName) ∧
    (envIdle.parseJSON (EValue.vstr "not valid json") = none) ∧
    V2.mainDispatch envIdle 8
        ⟨WhatCanYouDoDialogName, [⟨QUERY_PROPERTY, EValue.vstr "not valid json"⟩]⟩ ""
        ⟨[], none⟩ =
      (JSResult.resourceResponse,
       ⟨⟨[], none⟩,
        [Effect.sent "Try and choose a query from the card before you click the 'Let's talk!' button."],
        true, ""⟩) := by
  refine ⟨rfl, rfl, ?_⟩
  exact malformed_payload_aborts envIdle 7
    ⟨WhatCanYouDoDialogName, [⟨QUERY_PROPERTY, EValue.vstr "not valid json"⟩]⟩ ""
    ⟨[], none⟩ ⟨QUERY_PROPERTY, EValue.vstr "not valid json"⟩ rfl rfl (by decide) rfl

/-- The claim C9: a turn resumed by an active sub-conversation that
consumes the turn and stays `waiting` leaves the conversation state (in
particular the active sub-conversation marker) unchanged and begins no
dialog; dispatching a second such turn immediately afterwards again
begins no dialog, so no second instance of the active sub-conversation is
ever started. -/
theorem waiting_resume_never_restarts (env : V2.Env) (fuel : Nat)
    (otp otp2 : OnTurnProperty) (text text2 : String) (conv : V2.ConvState)
    (d : String) (rest : List String)
    (hstack : conv.stack = d :: rest)
    (hallow : (V2.isRequestedOperationPossible otp.intent (some d)).allowed = true)
    (hw : (env.childContinue d otp).result.status = DialogTurnStatus.waiting)
    (hm : (env.childContinue d otp).msgs ≠ [])
    (hallow2 : (V2.isRequestedOperationPossible otp2.intent (some d)).allowed = true)
    (hw2 : (env.childContinue d otp2).result.status = DialogTurnStatus.waiting)
    (hm2 : (env.childContinue d otp2).msgs ≠ []) :
    (V2.mainDispatch env fuel otp text conv).2.conv = conv ∧
    ((V2.mainDispatch env fuel otp text conv).2.trace.all (fun e => !e.isBegan)) = true ∧
    (V2.mainDispatch env fuel otp2 text2
        (V2.mainDispatch env fuel otp text conv).2.conv).2.conv = conv ∧
    ((V2.mainDispatch env fuel otp2 text2
        (V2.mainDispatch env fuel otp text conv).2.conv).2.trace.all (fun e => !e.isBegan)) = true := by
  have h1 := mainDispatch_waiting_run env fuel otp text conv d rest hstack hallow hw hm
  have h2 := mainDispatch_waiting_run env fuel otp2 text2 conv d rest hstack hallow2 hw2 hm2
  rw [h1]
  exact ⟨rfl, map_sent_all_not_isBegan _, by rw [h2], by rw [h2]; exact map_sent_all_not_isBegan _⟩

/-- Witness for C9 at a concrete input: an active Book Table dialog
prompts and waits on two consecutive turns; the stack never changes and
no dialog is begun. -/
theorem waiting_resume_never_restarts_witness :
    ((envWaiting.childContinue "BookTable" ⟨"Greeting", []⟩).result.status
        = DialogTurnStatus.waiting) ∧
    ((V2.isRequestedOperationPossible "Greeting" (some "BookTable")).allowed = true) ∧
    (V2.mainDispatch envWaiting 8 ⟨"Greeting", []⟩ "" ⟨["BookTable"], none⟩).2.conv
        = ⟨["BookTable"], none⟩ ∧
    ((V2.mainDispatch envWaiting 8 ⟨"Greeting", []⟩ "" ⟨["BookTable"], none⟩).2.trace.all
        (fun e => !e.isBegan)) = true ∧
    (V2.mainDispatch envWaiting 8 ⟨"Greeting", []⟩ ""
        (V2.mainDispatch envWaiting 8 ⟨"Greeting", []⟩ "" ⟨["BookTable"], none⟩).2.conv).2.conv
        = ⟨["BookTable"], none⟩ ∧
    ((V2.mainDispatch envWaiting 8 ⟨"Greeting", []⟩ ""
        (V2.mainDispatch envWaiting 8 ⟨"Greeting", []⟩ "" ⟨["BookTable"], none⟩).2.conv).2.trace.all
        (fun e => !e.isBegan)) = true := by
  refine ⟨rfl, by decide, ?_⟩
  have h := waiting_resume_never_restarts envWaiting 8 ⟨"Greeting", []⟩ ⟨"Greeting", []⟩ "" ""
    ⟨["BookTable"], none⟩ "BookTable" [] rfl (by decide) rfl (by decide) (by decide) rfl (by decide)
  exact ⟨h.1, h.2.1, h.2.2.1, h.2.2.2⟩

/-- The claim C10: in variant 1, whenever the continuation result's
status is not `empty`, `onDialogContinue` returns that result unchanged
right after the early status check — the trace holds exactly the resumed
child's own messages (no closing prompt) and neither `dc.EndAsync()` nor
`dc.cancelAll()` is performed, the reconciliation switch being entered
only on `empty`. -/
theorem v1_nonempty_status_early_return (env : V1.Env) (otp : OnTurnProperty)
    (conv : V1.ConvState) (d : String) (rest : List String)
    (hstack : conv.stack = d :: rest)
    (hallow : (V1.isRequestedOperationPossible otp.intent conv.activeDialogProp).allowed = true)
    (hne : (env.childContinue d otp).result.status ≠ DialogTurnStatus.empty) :
    (V1.onDialogContinue env otp conv).1 = JSResult.turnResult (env.childContinue d otp).result ∧
    (V1.onDialogContinue env otp conv).2.trace = (env.childContinue d otp).msgs.map Effect.sent ∧
    Effect.cancelledAll ∉ (V1.onDialogContinue env otp conv).2.trace ∧
    Effect.endedAsync ∉ (V1.onDialogContinue env otp conv).2.trace := by
  obtain ⟨adp, s⟩ := conv
  simp only at hstack hallow
  subst hstack
  have hrun : V1.onDialogContinue env otp ⟨adp, d :: rest⟩ =
      (JSResult.turnResult (env.childContinue d otp).result,
       { conv := { activeDialogProp := adp,
                   stack := if (env.childContinue d otp).result.status = DialogTurnStatus.waiting
                            then d :: rest else rest },
         trace := (env.childContinue d otp).msgs.map Effect.sent,
         responded := (V1.sendAll (env.childContinue d otp).msgs ⟨⟨adp, d :: rest⟩, [], false⟩).responded }) := by
    unfold V1.onDialogContinue V1.dcContinue
    simp only [hallow, Bool.true_eq_false, if_false, reduceIte, hne, ne_eq,
      not_false_eq_true, if_true, v1_sendAll_conv, v1_sendAll_trace, List.nil_append]
  rw [hrun]
  exact ⟨rfl, rfl, cancelledAll_not_mem_map_sent _, endedAsync_not_mem_map_sent _⟩

/-- Witness for C10 at a concrete input: the active Book Table dialog
answers with a prompt and stays `waiting`; `onDialogContinue` returns the
`waiting` result with only the child's message in the trace. -/
theorem v1_nonempty_status_early_return_witness :
    ((envV1wait.childContinue "BookTable" ⟨"Greeting", []⟩).result.status
        ≠ DialogTurnStatus.empty) ∧
    (V1.onDialogContinue envV1wait ⟨"Greeting", []⟩ ⟨none, ["BookTable"]⟩).1 =
      JSResult.turnResult ⟨DialogTurnStatus.waiting, none⟩ ∧
    (V1.onDialogContinue envV1wait ⟨"Greeting", []⟩ ⟨none, ["BookTable"]⟩).2.trace =
      [Effect.sent "What time do you want to reserve?"] ∧
    Effect.cancelledAll ∉ (V1.onDialogContinue envV1wait ⟨"Greeting", []⟩ ⟨none, ["BookTable"]⟩).2.trace := by
  refine ⟨by decide, ?_⟩
  have h := v1_nonempty_status_early_return envV1wait ⟨"Greeting", []⟩ ⟨none, ["BookTable"]⟩
    "BookTable" [] rfl (by decide) (by decide)
  exact ⟨h.1, h.2.1, h.2.2.1⟩

end ContosoDispatch
